import Mathlib

/-!
Verification of the secure-boot subsystem interface declared in
`tools/sdk/esp32/include/bootloader_support/include/esp_secure_boot.h`.

The header contains one real inline implementation, `esp_secure_boot_enabled`
(lines 51-63), which is embedded here directly from its source, preprocessor
branches becoming boolean build-configuration fields.  The remaining functions
are declarations only; their behaviour is modelled from the specification of
the subsystem (fuse-enablement state machine, digest generator, signature
verifiers), with return codes taken from the doc comments in the header where
the header states them.
-/

/-- ESP_OK from esp_err.h: success. -/
def ESP_OK : Int := 0

/-- ESP_FAIL from esp_err.h: generic failure. -/
def ESP_FAIL : Int := -1

/-- ESP_ERR_INVALID_STATE from esp_err.h (value 0x103). -/
def ESP_ERR_INVALID_STATE : Int := 0x103

/-- Build configuration: which IDF target and which secure-boot scheme the
preprocessor symbols select (CONFIG_IDF_TARGET_ESP32,
CONFIG_SECURE_BOOT_V1_ENABLED, CONFIG_SECURE_BOOT_V2_ENABLED). -/
structure BuildConfig where
  idfTargetEsp32 : Bool
  secureBootV1Enabled : Bool
  secureBootV2Enabled : Bool
deriving DecidableEq, Repr

/-- Hardware efuse readings consumed by esp_secure_boot_enabled: the
EFUSE_RD_ABS_DONE_0 bit of EFUSE_BLK0_RDATA6_REG, the result of the ROM call
ets_use_secure_boot_v2, and the result of esp_rom_efuse_is_secure_boot_enabled. -/
structure EfuseHw where
  absDone0Bit : Bool
  useSecureBootV2 : Bool
  romEfuseSecureBootEnabled : Bool
deriving DecidableEq, Repr

/-- Embedding of the inline function esp_secure_boot_enabled (header lines
51-63).  On the ESP32 target the V1 branch reads the ABS_DONE_0 efuse bit, the
V2 branch calls ets_use_secure_boot_v2, and when neither scheme is configured
the code falls through to the final `return false`.  On every other target the
function returns esp_rom_efuse_is_secure_boot_enabled() and the final return is
unreachable. -/
def esp_secure_boot_enabled (cfg : BuildConfig) (hw : EfuseHw) : Bool :=
  if cfg.idfTargetEsp32 then
    if cfg.secureBootV1Enabled then hw.absDone0Bit
    else if cfg.secureBootV2Enabled then hw.useSecureBootV2
    else false
  else
    hw.romEfuseSecureBootEnabled

/-- The statement of esp_secure_boot_enabled that a given build configuration
compiles to, used to reason about which return is reachable. -/
inductive EnabledPath
  | v1FuseRead
  | v2RomCall
  | romEfuseQuery
  | notConfiguredFallback
deriving DecidableEq, Repr

/-- Which return statement of esp_secure_boot_enabled the preprocessor leaves
reachable for a given build configuration (header lines 53-62). -/
def esp_secure_boot_enabled_path (cfg : BuildConfig) : EnabledPath :=
  if cfg.idfTargetEsp32 then
    if cfg.secureBootV1Enabled then .v1FuseRead
    else if cfg.secureBootV2Enabled then .v2RomCall
    else .notConfiguredFallback
  else
    .romEfuseQuery

/-- FuseState of the data model: NotBurned, SchemeV1Enabled, SchemeV2Enabled. -/
inductive FuseState
  | notBurned
  | schemeV1Enabled
  | schemeV2Enabled
deriving DecidableEq, Repr

/-- Modelled from the spec: the one-time-programmable fuse bits touched by this
subsystem (the fuse I/O implementation is not in the fragment).  V1 key material
lives in one key block with read+write protection, V2 key digest in BLK2 with
write protection only; EFUSE_RD_ABS_DONE_0 enables scheme V1 and
EFUSE_RD_ABS_DONE_1 enables scheme V2.  Fuses are one-way bits: operations may
only set a field from false to true. -/
structure Fuses where
  v1KeyBurned : Bool
  v1KeyRWProtected : Bool
  v2KeyBurned : Bool
  v2KeyWProtected : Bool
  absDone0 : Bool
  absDone1 : Bool
deriving DecidableEq, Repr

/-- Reading the scheme from the fuse bits: ABS_DONE_0 means scheme V1 enabled,
else ABS_DONE_1 means scheme V2 enabled, else nothing is burned. -/
def readFuseState (f : Fuses) : FuseState :=
  if f.absDone0 then .schemeV1Enabled
  else if f.absDone1 then .schemeV2Enabled
  else .notBurned

/-- Hardware readings corresponding to a fuse state: the ABS_DONE_0 register
bit is the V1 fuse, ets_use_secure_boot_v2 reports the V2 fuse, and the generic
ROM query reports either scheme. -/
def fusesToHw (f : Fuses) : EfuseHw :=
  { absDone0Bit := f.absDone0
    useSecureBootV2 := f.absDone1
    romEfuseSecureBootEnabled := f.absDone0 || f.absDone1 }

/-- Result of an enable operation: the esp_err_t code, the fuse state after the
call, and the number of fuse write (burn/protect) operations performed, the
write-count probe of the test-double model. -/
structure EnableResult where
  err : Int
  fuses : Fuses
  fuseWrites : Nat
deriving DecidableEq, Repr

/-- Modelled from the spec: the fuse pattern from which a clean V1 enable can
proceed (the enable implementation is not in the fragment).  The V1 key must
already be burned by the digest generator and the other scheme must not be
enabled; any other pattern with bits burned is a partial or inconsistent burn. -/
def v1EnableConsistent (f : Fuses) : Bool :=
  f.v1KeyBurned && !f.absDone1

/-- Modelled from the spec: the fuse pattern from which a clean V2 enable can
proceed.  The V2 key must already be burned and the other scheme must not be
enabled. -/
def v2EnableConsistent (f : Fuses) : Bool :=
  f.v2KeyBurned && !f.absDone0

/-- Modelled from the spec: esp_secure_boot_permanently_enable (declared only,
header lines 87-111).  Protocol: if already enabled succeed with no write; if
the fuse pattern is inconsistent fail with ESP_ERR_INVALID_STATE before any
irreversible write; otherwise apply read+write protection to the V1 key and
burn EFUSE_RD_ABS_DONE_0. -/
def esp_secure_boot_permanently_enable (f : Fuses) : EnableResult :=
  if f.absDone0 then
    { err := ESP_OK, fuses := f, fuseWrites := 0 }
  else if v1EnableConsistent f then
    { err := ESP_OK
      fuses := { f with v1KeyRWProtected := true, absDone0 := true }
      fuseWrites := 2 }
  else
    { err := ESP_ERR_INVALID_STATE, fuses := f, fuseWrites := 0 }

/-- Image metadata of the application to be loaded, owned by the image-loader
collaborator; opaque to the fuse-enable protocol. -/
structure EspImageMetadata where
  startAddr : Nat
  imageLen : Nat
deriving DecidableEq, Repr

/-- Modelled from the spec: esp_secure_boot_v2_permanently_enable (declared
only, header lines 113-138).  Same protocol shape as V1: idempotent success if
already enabled, ESP_ERR_INVALID_STATE with no write on an inconsistent
pattern, otherwise write-protect the V2 key and burn EFUSE_RD_ABS_DONE_1. -/
def esp_secure_boot_v2_permanently_enable (image_data : EspImageMetadata)
    (f : Fuses) : EnableResult :=
  if f.absDone1 then
    { err := ESP_OK, fuses := f, fuseWrites := 0 }
  else if v2EnableConsistent f then
    { err := ESP_OK
      fuses := { f with v2KeyWProtected := true, absDone1 := true }
      fuseWrites := 2 }
  else
    { err := ESP_ERR_INVALID_STATE, fuses := f, fuseWrites := 0 }

/-- State of the persistent resources the subsystem mutates: fuse bits and the
digest persisted at the fixed flash offset (FLASH_OFFS_SECURE_BOOT_IV_DIGEST). -/
structure SysState where
  fuses : Fuses
  flashDigest : Option (List Nat)
deriving DecidableEq, Repr

/-- Modelled from the spec: esp_secure_boot_generate_digest (declared only,
header lines 65-85).  If a digest is already present at the fixed flash offset
the call is a success and changes nothing.  Otherwise it burns the secure-boot
key if not yet burned (without protection) and persists the digest of the
bootloader image; a flash-write failure yields the generic ESP_FAIL with the
key left burned. -/
def esp_secure_boot_generate_digest (sha256 : List Nat → List Nat)
    (bootloaderImage : List Nat) (flashWriteOk : Bool) (s : SysState) :
    Int × SysState :=
  match s.flashDigest with
  | some _ => (ESP_OK, s)
  | none =>
    let f1 := if s.fuses.v1KeyBurned then s.fuses
              else { s.fuses with v1KeyBurned := true }
    if flashWriteOk then
      (ESP_OK, { fuses := f1, flashDigest := some (sha256 bootloaderImage) })
    else
      (ESP_FAIL, { fuses := f1, flashDigest := none })

/-- Operations of this subsystem that can touch persistent state. -/
inductive Op
  | genDigest (sha256 : List Nat → List Nat) (image : List Nat) (writeOk : Bool)
  | enableV1
  | enableV2 (md : EspImageMetadata)

/-- Effect of one operation on the persistent state. -/
def stepOp (op : Op) (s : SysState) : SysState :=
  match op with
  | .genDigest sha img ok => (esp_secure_boot_generate_digest sha img ok s).2
  | .enableV1 =>
    { s with fuses := (esp_secure_boot_permanently_enable s.fuses).fuses }
  | .enableV2 md =>
    { s with fuses := (esp_secure_boot_v2_permanently_enable md s.fuses).fuses }

/-- Running a sequence of operations of the subsystem. -/
def runOps (ops : List Op) (s : SysState) : SysState :=
  match ops with
  | [] => s
  | op :: rest => runOps rest (stepOp op s)

/-- ECDSA signature block, on-flash format (header lines 162-165). -/
structure EspSecureBootSigBlock where
  version : Nat
  signature : List Nat
deriving DecidableEq, Repr

/-- RSA (V2) signature block: public key plus RSA-PSS signature material,
opaque scheme-defined layout owned by the ROM collaborator. -/
structure EtsSecureBootSignature where
  pubKey : List Nat
  rsaSig : List Nat
deriving DecidableEq, Repr

/-- Modelled from the spec: esp_secure_boot_verify_ecdsa_signature_block
(declared only, header lines 167-178).  The deterministic-ECDSA primitive is a
ROM collaborator, abstracted as the predicate ecdsaValid over the block and the
image digest.  On success the verified-digest output holds the verified SHA-256
digest; on failure it holds nothing defined. -/
def esp_secure_boot_verify_ecdsa_signature_block
    (ecdsaValid : EspSecureBootSigBlock → List Nat → Bool)
    (sig_block : EspSecureBootSigBlock) (image_digest : List Nat) :
    Int × Option (List Nat) :=
  if ecdsaValid sig_block image_digest then (ESP_OK, some image_digest)
  else (ESP_ERR_INVALID_STATE, none)

/-- Modelled from the spec: esp_secure_boot_verify_rsa_signature_block
(declared only, header lines 181-192).  The public key taken from the block is
accepted only when its SHA-256 digest matches the digest burned in efuse, then
the RSA-PSS primitive (a ROM collaborator, abstracted as rsaPssValid) checks
the signature over the image digest. -/
def esp_secure_boot_verify_rsa_signature_block
    (sha256 : List Nat → List Nat) (fuseKeyDigest : List Nat)
    (rsaPssValid : List Nat → List Nat → List Nat → Bool)
    (sig_block : EtsSecureBootSignature) (image_digest : List Nat) :
    Int × Option (List Nat) :=
  if sha256 sig_block.pubKey == fuseKeyDigest
      && rsaPssValid sig_block.pubKey sig_block.rsaSig image_digest then
    (ESP_OK, some image_digest)
  else
    (ESP_ERR_INVALID_STATE, none)

/-- Modelled from the spec: esp_secure_boot_verify_signature (declared only,
header lines 140-159).  Reads length bytes at src_addr through the flash
capability (decryption transparent), reads the appended signature block, hashes
the bytes and verifies the block.  Return codes are those documented in the
header: ESP_OK if the signature is valid, ESP_ERR_INVALID_STATE if the
signature fails, ESP_FAIL for other failures such as an unreadable flash
range. -/
def esp_secure_boot_verify_signature
    (sha256 : List Nat → List Nat)
    (ecdsaValid : EspSecureBootSigBlock → List Nat → Bool)
    (flashRead : Nat → Nat → Option (List Nat))
    (readSigBlock : Nat → Option EspSecureBootSigBlock)
    (src_addr length : Nat) : Int :=
  match flashRead src_addr length with
  | none => ESP_FAIL
  | some bytes =>
    match readSigBlock (src_addr + length) with
    | none => ESP_FAIL
    | some sb =>
      (esp_secure_boot_verify_ecdsa_signature_block ecdsaValid sb
        (sha256 bytes)).1

/-- Modelled from the spec: the deprecated legacy entry point
esp_secure_boot_verify_signature_block (declared only, header lines 194-202), a
forwarding shim to the ECDSA block verifier that discards the verified-digest
output. -/
def esp_secure_boot_verify_signature_block
    (ecdsaValid : EspSecureBootSigBlock → List Nat → Bool)
    (sig_block : EspSecureBootSigBlock) (image_digest : List Nat) : Int :=
  (esp_secure_boot_verify_ecdsa_signature_block ecdsaValid sig_block
    image_digest).1

/-- A single operation never clears the V1 enable fuse. -/
theorem stepOp_mono_absDone0 (op : Op) (s : SysState)
    (h : s.fuses.absDone0 = true) : (stepOp op s).fuses.absDone0 = true := by
  cases op with
  | genDigest sha img ok =>
    simp only [stepOp, esp_secure_boot_generate_digest]
    cases hd : s.flashDigest with
    | some d => simpa [hd] using h
    | none =>
      cases hk : s.fuses.v1KeyBurned <;> cases hw : ok <;> simp_all
  | enableV1 =>
    simp only [stepOp, esp_secure_boot_permanently_enable]
    cases h0 : s.fuses.absDone0 with
    | true =>
      by_cases hc : v1EnableConsistent s.fuses = true <;> simp_all
    | false => simp_all
  | enableV2 md =>
    simp only [stepOp, esp_secure_boot_v2_permanently_enable]
    cases h1 : s.fuses.absDone1 with
    | true => simp_all
    | false =>
      by_cases hc : v2EnableConsistent s.fuses = true <;> simp_all

/-- A single operation never clears the V2 enable fuse. -/
theorem stepOp_mono_absDone1 (op : Op) (s : SysState)
    (h : s.fuses.absDone1 = true) : (stepOp op s).fuses.absDone1 = true := by
  cases op with
  | genDigest sha img ok =>
    simp only [stepOp, esp_secure_boot_generate_digest]
    cases hd : s.flashDigest with
    | some d => simpa [hd] using h
    | none =>
      cases hk : s.fuses.v1KeyBurned <;> cases hw : ok <;> simp_all
  | enableV1 =>
    simp only [stepOp, esp_secure_boot_permanently_enable]
    cases h0 : s.fuses.absDone0 with
    | true => simp_all
    | false =>
      by_cases hc : v1EnableConsistent s.fuses = true <;> simp_all
  | enableV2 md =>
    simp only [stepOp, esp_secure_boot_v2_permanently_enable]
    cases h1 : s.fuses.absDone1 with
    | true =>
      by_cases hc : v2EnableConsistent s.fuses = true <;> simp_all
    | false => simp_all

/-- Running any sequence of operations never clears the V1 enable fuse. -/
theorem runOps_mono_absDone0 (ops : List Op) (s : SysState)
    (h : s.fuses.absDone0 = true) : (runOps ops s).fuses.absDone0 = true := by
  induction ops generalizing s with
  | nil => simpa [runOps] using h
  | cons op rest ih =>
    simp only [runOps]
    exact ih (stepOp op s) (stepOp_mono_absDone0 op s h)

/-- Running any sequence of operations never clears the V2 enable fuse. -/
theorem runOps_mono_absDone1 (ops : List Op) (s : SysState)
    (h : s.fuses.absDone1 = true) : (runOps ops s).fuses.absDone1 = true := by
  induction ops generalizing s with
  | nil => simpa [runOps] using h
  | cons op rest ih =>
    simp only [runOps]
    exact ih (stepOp op s) (stepOp_mono_absDone1 op s h)

/-- Iff form of being burned: the fuse state reads as something other than
NotBurned exactly when one of the two enable fuses is set. -/
theorem readFuseState_ne_notBurned_iff (f : Fuses) :
    readFuseState f ≠ FuseState.notBurned ↔
      (f.absDone0 = true ∨ f.absDone1 = true) := by
  cases h0 : f.absDone0 <;> cases h1 : f.absDone1 <;>
    simp [readFuseState, h0, h1]

/-- A V1 enable call that reports ESP_OK leaves the ABS_DONE_0 fuse burned. -/
theorem enableV1_ok_absDone0 (f : Fuses)
    (h : (esp_secure_boot_permanently_enable f).err = ESP_OK) :
    (esp_secure_boot_permanently_enable f).fuses.absDone0 = true := by
  unfold esp_secure_boot_permanently_enable at *
  cases h0 : f.absDone0 with
  | true => simp [h0]
  | false =>
    by_cases hc : v1EnableConsistent f = true
    · simp [h0, hc]
    · simp only [h0, hc] at h
      simp only [Bool.false_eq_true, if_false, if_neg hc] at h
      exact absurd h (by simp [ESP_ERR_INVALID_STATE, ESP_OK])

/-- A V2 enable call that reports ESP_OK leaves the ABS_DONE_1 fuse burned. -/
theorem enableV2_ok_absDone1 (md : EspImageMetadata) (f : Fuses)
    (h : (esp_secure_boot_v2_permanently_enable md f).err = ESP_OK) :
    (esp_secure_boot_v2_permanently_enable md f).fuses.absDone1 = true := by
  unfold esp_secure_boot_v2_permanently_enable at *
  cases h1 : f.absDone1 with
  | true => simp [h1]
  | false =>
    by_cases hc : v2EnableConsistent f = true
    · simp [h1, hc]
    · simp only [h1, hc] at h
      simp only [Bool.false_eq_true, if_false, if_neg hc] at h
      exact absurd h (by simp [ESP_ERR_INVALID_STATE, ESP_OK])

/-- C1 (counterexample): the claim that a signature mismatch gets a code
distinct from the InvalidState code is false.  The header documents
ESP_ERR_INVALID_STATE for a failed signature, the very code
esp_secure_boot_permanently_enable returns for a fuse precondition violation:
at a concrete mismatching input both calls return the same code 0x103. -/
theorem c1_mismatch_code_not_distinct :
    esp_secure_boot_verify_signature (fun _ => [0]) (fun _ _ => false)
      (fun _ _ => some [1, 2]) (fun _ => some ⟨1, [7]⟩) 0 2 =
      ESP_ERR_INVALID_STATE ∧
    (esp_secure_boot_permanently_enable
      ⟨false, true, false, false, false, false⟩).err = ESP_ERR_INVALID_STATE := by
  constructor <;> rfl

/-- C1 (amended): esp_secure_boot_verify_signature reports a signature mismatch
with ESP_ERR_INVALID_STATE, the same code the enable operations use for fuse
precondition violations rather than a distinct InvalidSignature code, and an
unreadable flash range with the generic ESP_FAIL. -/
theorem c1_verify_signature_error_codes
    (sha : List Nat → List Nat)
    (ecdsaValid : EspSecureBootSigBlock → List Nat → Bool)
    (flashRead : Nat → Nat → Option (List Nat))
    (readSigBlock : Nat → Option EspSecureBootSigBlock)
    (src len : Nat) :
    (flashRead src len = none →
      esp_secure_boot_verify_signature sha ecdsaValid flashRead readSigBlock
        src len = ESP_FAIL) ∧
    (∀ bytes sb, flashRead src len = some bytes →
      readSigBlock (src + len) = some sb →
      ecdsaValid sb (sha bytes) = false →
      esp_secure_boot_verify_signature sha ecdsaValid flashRead readSigBlock
        src len = ESP_ERR_INVALID_STATE) := by
  constructor
  · intro h
    simp [esp_secure_boot_verify_signature, h]
  · intro bytes sb hb hs hv
    simp [esp_secure_boot_verify_signature, hb, hs,
      esp_secure_boot_verify_ecdsa_signature_block, hv]

/-- C1 (witness): the amended error-code mapping at concrete inputs. -/
theorem c1_verify_signature_error_codes_witness :
    esp_secure_boot_verify_signature (fun _ => [0]) (fun _ _ => false)
      (fun _ _ => none) (fun _ => none) 0 4 = ESP_FAIL ∧
    esp_secure_boot_verify_signature (fun _ => [0]) (fun _ _ => false)
      (fun _ _ => some [1, 2]) (fun _ => some ⟨1, [7]⟩) 0 4 =
      ESP_ERR_INVALID_STATE :=
  ⟨(c1_verify_signature_error_codes (fun _ => [0]) (fun _ _ => false)
      (fun _ _ => none) (fun _ => none) 0 4).1 rfl,
   (c1_verify_signature_error_codes (fun _ => [0]) (fun _ _ => false)
      (fun _ _ => some [1, 2]) (fun _ => some ⟨1, [7]⟩) 0 4).2
      [1, 2] ⟨1, [7]⟩ rfl rfl rfl⟩

/-- C2: a byte range carrying a valid appended signature verifies with ESP_OK;
a block-level call (ECDSA or RSA) that reports ESP_OK has filled the
verified-digest output with the SHA-256 image digest of the verified range; on
any non-success outcome the output carries no defined digest. -/
theorem c2_verify_success_verified_digest :
    (∀ (sha : List Nat → List Nat)
        (ecdsaValid : EspSecureBootSigBlock → List Nat → Bool)
        (flashRead : Nat → Nat → Option (List Nat))
        (readSigBlock : Nat → Option EspSecureBootSigBlock)
        (src len : Nat) (bytes : List Nat) (sb : EspSecureBootSigBlock),
      flashRead src len = some bytes → readSigBlock (src + len) = some sb →
      ecdsaValid sb (sha bytes) = true →
      esp_secure_boot_verify_signature sha ecdsaValid flashRead readSigBlock
        src len = ESP_OK) ∧
    (∀ (ecdsaValid : EspSecureBootSigBlock → List Nat → Bool)
        (sb : EspSecureBootSigBlock) (d : List Nat),
      ((esp_secure_boot_verify_ecdsa_signature_block ecdsaValid sb d).1 =
          ESP_OK →
        (esp_secure_boot_verify_ecdsa_signature_block ecdsaValid sb d).2 =
          some d) ∧
      ((esp_secure_boot_verify_ecdsa_signature_block ecdsaValid sb d).1 ≠
          ESP_OK →
        (esp_secure_boot_verify_ecdsa_signature_block ecdsaValid sb d).2 =
          none)) ∧
    (∀ (sha : List Nat → List Nat) (fuseKeyDigest : List Nat)
        (rsaPssValid : List Nat → List Nat → List Nat → Bool)
        (sb : EtsSecureBootSignature) (d : List Nat),
      ((esp_secure_boot_verify_rsa_signature_block sha fuseKeyDigest
          rsaPssValid sb d).1 = ESP_OK →
        (esp_secure_boot_verify_rsa_signature_block sha fuseKeyDigest
          rsaPssValid sb d).2 = some d) ∧
      ((esp_secure_boot_verify_rsa_signature_block sha fuseKeyDigest
          rsaPssValid sb d).1 ≠ ESP_OK →
        (esp_secure_boot_verify_rsa_signature_block sha fuseKeyDigest
          rsaPssValid sb d).2 = none)) := by
  refine ⟨?_, ?_, ?_⟩
  · intro sha ecdsaValid flashRead readSigBlock src len bytes sb hb hs hv
    simp [esp_secure_boot_verify_signature, hb, hs,
      esp_secure_boot_verify_ecdsa_signature_block, hv]
  · intro ecdsaValid sb d
    by_cases hv : ecdsaValid sb d = true
    · simp [esp_secure_boot_verify_ecdsa_signature_block, hv]
    · simp [esp_secure_boot_verify_ecdsa_signature_block, hv,
        ESP_ERR_INVALID_STATE, ESP_OK]
  · intro sha fuseKeyDigest rsaPssValid sb d
    by_cases hv : (sha sb.pubKey == fuseKeyDigest
        && rsaPssValid sb.pubKey sb.rsaSig d) = true
    · simp [esp_secure_boot_verify_rsa_signature_block, hv]
    · simp only [esp_secure_boot_verify_rsa_signature_block, hv]
      simp [ESP_ERR_INVALID_STATE, ESP_OK]

/-- C2 (witness): the success path and the verified-digest equations at
concrete inputs. -/
theorem c2_verify_success_verified_digest_witness :
    esp_secure_boot_verify_signature (fun _ => [9]) (fun _ _ => true)
      (fun _ _ => some [1, 2]) (fun _ => some ⟨1, [7]⟩) 0 2 = ESP_OK ∧
    (esp_secure_boot_verify_ecdsa_signature_block (fun _ _ => true)
      ⟨1, [7]⟩ [9]).2 = some [9] ∧
    (esp_secure_boot_verify_rsa_signature_block (fun _ => [5]) [5]
      (fun _ _ _ => true) ⟨[3], [4]⟩ [9]).2 = some [9] :=
  ⟨c2_verify_success_verified_digest.1 (fun _ => [9]) (fun _ _ => true)
      (fun _ _ => some [1, 2]) (fun _ => some ⟨1, [7]⟩) 0 2 [1, 2] ⟨1, [7]⟩
      rfl rfl rfl,
   (c2_verify_success_verified_digest.2.1 (fun _ _ => true) ⟨1, [7]⟩ [9]).1 rfl,
   (c2_verify_success_verified_digest.2.2 (fun _ => [5]) [5]
      (fun _ _ _ => true) ⟨[3], [4]⟩ [9]).1 rfl⟩

/-- C3: once the fuse state reads as SchemeV1Enabled or SchemeV2Enabled, no
sequence of operations of this subsystem brings it back to NotBurned: every
operation only sets fuse bits, never clears them. -/
theorem c3_enabled_never_unburned (ops : List Op) (s : SysState)
    (h : readFuseState s.fuses ≠ FuseState.notBurned) :
    readFuseState (runOps ops s).fuses ≠ FuseState.notBurned := by
  rcases (readFuseState_ne_notBurned_iff s.fuses).1 h with h0 | h1
  · exact (readFuseState_ne_notBurned_iff _).2
      (Or.inl (runOps_mono_absDone0 ops s h0))
  · exact (readFuseState_ne_notBurned_iff _).2
      (Or.inr (runOps_mono_absDone1 ops s h1))

/-- C3 (witness): a V1-enabled state stays burned across a run of further
enable calls. -/
theorem c3_enabled_never_unburned_witness :
    readFuseState (runOps [Op.enableV2 ⟨0, 0⟩, Op.enableV1]
      ⟨⟨true, true, false, false, true, false⟩, none⟩).fuses ≠
      FuseState.notBurned :=
  c3_enabled_never_unburned [Op.enableV2 ⟨0, 0⟩, Op.enableV1]
    ⟨⟨true, true, false, false, true, false⟩, none⟩ (by decide)

/-- C4: on a fuse state whose burned bits form a partial or inconsistent
pattern (neither scheme enabled and neither scheme's clean-enable precondition
met), both enable variants fail with ESP_ERR_INVALID_STATE, leave every fuse
bit unchanged, and perform zero fuse writes: validation precedes the first
irreversible write. -/
theorem c4_inconsistent_pattern_enable_fails (f : Fuses) (md : EspImageMetadata)
    (h0 : f.absDone0 = false) (h1 : f.absDone1 = false)
    (hc1 : v1EnableConsistent f = false) (hc2 : v2EnableConsistent f = false) :
    esp_secure_boot_permanently_enable f =
      { err := ESP_ERR_INVALID_STATE, fuses := f, fuseWrites := 0 } ∧
    esp_secure_boot_v2_permanently_enable md f =
      { err := ESP_ERR_INVALID_STATE, fuses := f, fuseWrites := 0 } := by
  constructor
  · simp [esp_secure_boot_permanently_enable, h0, hc1]
  · simp [esp_secure_boot_v2_permanently_enable, h1, hc2]

/-- C4 (witness): key protection burned without the key itself is inconsistent
for both schemes; both enables fail in state-preserving fashion. -/
theorem c4_inconsistent_pattern_enable_fails_witness :
    esp_secure_boot_permanently_enable
      ⟨false, true, false, true, false, false⟩ =
      { err := ESP_ERR_INVALID_STATE
        fuses := ⟨false, true, false, true, false, false⟩
        fuseWrites := 0 } ∧
    esp_secure_boot_v2_permanently_enable ⟨0, 0⟩
      ⟨false, true, false, true, false, false⟩ =
      { err := ESP_ERR_INVALID_STATE
        fuses := ⟨false, true, false, true, false, false⟩
        fuseWrites := 0 } :=
  c4_inconsistent_pattern_enable_fails
    ⟨false, true, false, true, false, false⟩ ⟨0, 0⟩ rfl rfl rfl rfl

/-- C5: when the relevant scheme is already enabled, calling its enable
operation again returns ESP_OK, performs zero fuse writes and leaves the fuse
bits exactly as they were. -/
theorem c5_enable_idempotent_when_enabled (f g : Fuses) (md : EspImageMetadata)
    (h0 : f.absDone0 = true) (h1 : g.absDone1 = true) :
    esp_secure_boot_permanently_enable f =
      { err := ESP_OK, fuses := f, fuseWrites := 0 } ∧
    esp_secure_boot_v2_permanently_enable md g =
      { err := ESP_OK, fuses := g, fuseWrites := 0 } := by
  constructor
  · simp [esp_secure_boot_permanently_enable, h0]
  · simp [esp_secure_boot_v2_permanently_enable, h1]

/-- C5 (witness): repeated enable on already-enabled states at concrete
inputs. -/
theorem c5_enable_idempotent_when_enabled_witness :
    esp_secure_boot_permanently_enable
      ⟨true, true, false, false, true, false⟩ =
      { err := ESP_OK
        fuses := ⟨true, true, false, false, true, false⟩
        fuseWrites := 0 } ∧
    esp_secure_boot_v2_permanently_enable ⟨4096, 65536⟩
      ⟨false, false, true, true, false, true⟩ =
      { err := ESP_OK
        fuses := ⟨false, false, true, true, false, true⟩
        fuseWrites := 0 } :=
  c5_enable_idempotent_when_enabled
    ⟨true, true, false, false, true, false⟩
    ⟨false, false, true, true, false, true⟩ ⟨4096, 65536⟩ rfl rfl

/-- C6: after an enable call of either variant returns ESP_OK, every later
read of esp_secure_boot_enabled under the matching build configuration returns
true, whatever further operations of the subsystem run in between. -/
theorem c6_enable_ok_secure_boot_enabled (s : SysState) (md : EspImageMetadata)
    (ops : List Op) :
    ((esp_secure_boot_permanently_enable s.fuses).err = ESP_OK →
      esp_secure_boot_enabled ⟨true, true, false⟩
        (fusesToHw (runOps ops
          { s with
            fuses := (esp_secure_boot_permanently_enable s.fuses).fuses }).fuses)
        = true) ∧
    ((esp_secure_boot_v2_permanently_enable md s.fuses).err = ESP_OK →
      esp_secure_boot_enabled ⟨true, false, true⟩
        (fusesToHw (runOps ops
          { s with
            fuses := (esp_secure_boot_v2_permanently_enable md
              s.fuses).fuses }).fuses) = true) := by
  constructor
  · intro h
    have hd := enableV1_ok_absDone0 s.fuses h
    have hrun := runOps_mono_absDone0 ops
      { s with fuses := (esp_secure_boot_permanently_enable s.fuses).fuses } hd
    simp [esp_secure_boot_enabled, fusesToHw, hrun]
  · intro h
    have hd := enableV2_ok_absDone1 md s.fuses h
    have hrun := runOps_mono_absDone1 ops
      { s with
        fuses := (esp_secure_boot_v2_permanently_enable md s.fuses).fuses } hd
    simp [esp_secure_boot_enabled, fusesToHw, hrun]

/-- C6 (witness): both enables succeed from a state with both keys burned, and
the enabled flag reads true afterwards across a further enable call. -/
theorem c6_enable_ok_secure_boot_enabled_witness :
    esp_secure_boot_enabled ⟨true, true, false⟩
      (fusesToHw (runOps [Op.enableV1]
        { fuses := (esp_secure_boot_permanently_enable
            ⟨true, false, true, false, false, false⟩).fuses
          flashDigest := none }).fuses) = true ∧
    esp_secure_boot_enabled ⟨true, false, true⟩
      (fusesToHw (runOps [Op.enableV1]
        { fuses := (esp_secure_boot_v2_permanently_enable ⟨0, 0⟩
            ⟨true, false, true, false, false, false⟩).fuses
          flashDigest := none }).fuses) = true :=
  ⟨(c6_enable_ok_secure_boot_enabled
      ⟨⟨true, false, true, false, false, false⟩, none⟩ ⟨0, 0⟩
      [Op.enableV1]).1 (by decide),
   (c6_enable_ok_secure_boot_enabled
      ⟨⟨true, false, true, false, false, false⟩, none⟩ ⟨0, 0⟩
      [Op.enableV1]).2 (by decide)⟩

/-- C7 (counterexample): the claim that the return-false policy default holds
for every build with no configured scheme fails: on a non-ESP32 target with
neither scheme configured, esp_secure_boot_enabled returns the ROM efuse
query, here true, not false. -/
theorem c7_not_configured_not_always_false :
    esp_secure_boot_enabled ⟨false, false, false⟩ ⟨false, false, true⟩ =
      true := rfl

/-- C7 (amended): on the ESP32 target, when neither secure-boot scheme is
configured, esp_secure_boot_enabled returns false for every hardware fuse
state. -/
theorem c7_esp32_not_configured_returns_false (cfg : BuildConfig)
    (hw : EfuseHw) (ht : cfg.idfTargetEsp32 = true)
    (h1 : cfg.secureBootV1Enabled = false)
    (h2 : cfg.secureBootV2Enabled = false) :
    esp_secure_boot_enabled cfg hw = false := by
  simp [esp_secure_boot_enabled, ht, h1, h2]

/-- C7 (witness): the ESP32 fallback at a fuse state with every bit set. -/
theorem c7_esp32_not_configured_returns_false_witness :
    esp_secure_boot_enabled ⟨true, false, false⟩ ⟨true, true, true⟩ = false :=
  c7_esp32_not_configured_returns_false ⟨true, false, false⟩ ⟨true, true, true⟩
    rfl rfl rfl

/-- C8: when a digest is already persisted at the fixed flash offset,
esp_secure_boot_generate_digest reports ESP_OK and leaves the whole persistent
state, the stored digest included, unchanged. -/
theorem c8_generate_digest_idempotent (sha : List Nat → List Nat)
    (img : List Nat) (writeOk : Bool) (s : SysState) (d : List Nat)
    (h : s.flashDigest = some d) :
    esp_secure_boot_generate_digest sha img writeOk s = (ESP_OK, s) := by
  simp [esp_secure_boot_generate_digest, h]

/-- C8 (witness): regeneration over an already-persisted digest at a concrete
state. -/
theorem c8_generate_digest_idempotent_witness :
    esp_secure_boot_generate_digest (fun _ => [3]) [1, 2] true
      ⟨⟨true, false, false, false, false, false⟩, some [9]⟩ =
      (ESP_OK, ⟨⟨true, false, false, false, false, false⟩, some [9]⟩) :=
  c8_generate_digest_idempotent (fun _ => [3]) [1, 2] true
    ⟨⟨true, false, false, false, false, false⟩, some [9]⟩ [9] rfl

/-- C9: the deprecated legacy entry point returns, on every input, exactly the
error code of the ECDSA block verifier with the verified-digest output
discarded: it is a forwarding shim, not duplicated logic. -/
theorem c9_legacy_verify_is_forwarding_shim :
    ∀ (ecdsaValid : EspSecureBootSigBlock → List Nat → Bool)
      (sb : EspSecureBootSigBlock) (d : List Nat),
    esp_secure_boot_verify_signature_block ecdsaValid sb d =
      (esp_secure_boot_verify_ecdsa_signature_block ecdsaValid sb d).1 :=
  fun _ _ _ => rfl

/-- C10: on every non-ESP32 target esp_secure_boot_enabled returns the ROM
efuse query esp_rom_efuse_is_secure_boot_enabled regardless of the configured
schemes, and the unconditional return-false fallback is reachable only when
the target is ESP32 and neither scheme is configured. -/
theorem c10_non_esp32_uses_rom_efuse_query :
    (∀ (cfg : BuildConfig) (hw : EfuseHw), cfg.idfTargetEsp32 = false →
      esp_secure_boot_enabled cfg hw = hw.romEfuseSecureBootEnabled) ∧
    (∀ cfg : BuildConfig,
      esp_secure_boot_enabled_path cfg = EnabledPath.notConfiguredFallback →
      cfg.idfTargetEsp32 = true ∧ cfg.secureBootV1Enabled = false ∧
        cfg.secureBootV2Enabled = false) := by
  constructor
  · intro cfg hw ht
    simp [esp_secure_boot_enabled, ht]
  · intro cfg h
    obtain ⟨a, b, c⟩ := cfg
    cases a <;> cases b <;> cases c <;>
      simp_all [esp_secure_boot_enabled_path]

/-- C10 (witness): a non-ESP32 build with both scheme options set still
returns the ROM efuse query value. -/
theorem c10_non_esp32_uses_rom_efuse_query_witness :
    esp_secure_boot_enabled ⟨false, true, true⟩ ⟨false, false, true⟩ =
      true := by
  have h := c10_non_esp32_uses_rom_efuse_query.1 ⟨false, true, true⟩
    ⟨false, false, true⟩ rfl
  simpa using h
